import Mathlib

/-!
Verification development for the PRD & Implementation Plan Generator
(`src/pl.py`), a single-file Streamlit application.  The Python source is
shallowly embedded: the two generation helpers become pure Lean functions
over an abstract provider, and the per-script-run UI event handling becomes
an explicit step function on the session state.
-/

namespace PrdPlan

/-- Python string truthiness: `bool(s)` is `False` exactly when `s` is empty.
Used by `if not app_idea or not app_name` (src/pl.py:100). -/
def pyTruthy (s : String) : Bool :=
  !s.isEmpty

/-- Python truthiness of `os.getenv(...)`: `None` and the empty string are
falsy (src/pl.py:14 `if not API_KEY`). -/
def optStrTruthy : Option String → Bool
  | none => false
  | some s => !s.isEmpty

/-- ASCII whitespace as recognised by Python `str.strip()` with no argument. -/
def isPySpace (c : Char) : Bool :=
  c = ' ' || c = '\t' || c = '\n' || c = '\x0d' || c = '\x0b' || c = '\x0c'

/-- Python `s.strip()`: drop leading and trailing whitespace
(src/pl.py:132 `prd_input.strip()`). -/
def pyStrip (s : String) : String :=
  ⟨((s.data.dropWhile isPySpace).reverse.dropWhile isPySpace).reverse⟩

/-- Python `app_name.replace(' ', '_')` (src/pl.py:113): every space becomes
an underscore.  For a single-character pattern this is a character map. -/
def replaceSpaces (s : String) : String :=
  ⟨s.data.map (fun c => if c = ' ' then '_' else c)⟩

/-- `s` consists of decimal digits only. -/
def isDigitString (s : String) : Bool :=
  s.data.all Char.isDigit

/-- Segment of the `generate_prd` f-string (src/pl.py:23-28) that comes
before the `{app_name}` placeholder.  Line breaks and trailing spaces follow
the source bytes exactly. -/
def prdTemplateA : String :=
  "\n    You are an expert product manager. Create a **Product Requirements Document (PRD)** \n    for the following app idea. The PRD should be clear, structured, and tailored \n    to the app type and description provided.\n\n    App Name: "

/-- Segment between `{app_name}` and `{app_type}` (src/pl.py:28-29). -/
def prdTemplateB : String := "\n    App Type: "

/-- Segment between `{app_type}` and `{app_idea}` (src/pl.py:29-30). -/
def prdTemplateC : String := "\n    Description: "

/-- Segment between `{app_idea}` and `{language}` (src/pl.py:30-44). -/
def prdTemplateD : String :=
  "\n\n    Structure the PRD with these sections:\n    1. Overview\n    2. Essential Core Features\n    3. Tech Stack\n    4. Design Preferences\n    5. All Screens/Pages\n    6. App Menu and Navigation Structure\n    7. User Flow\n    8. Monetization Strategy\n    9. Risks & Challenges\n    10. Roadmap (MVP → Future Releases)\n\n    Language: "

/-- Segment after `{language}` (src/pl.py:44-45). -/
def prdTemplateE : String := "\n    "

/-- The f-string of `generate_prd` (src/pl.py:23-45): the fixed template with
the user-controlled values substituted verbatim. -/
def generate_prd_prompt (app_name app_idea app_type language : String) : String :=
  prdTemplateA ++ app_name ++ prdTemplateB ++ app_type ++ prdTemplateC ++ app_idea ++
    prdTemplateD ++ language ++ prdTemplateE

/-- Segment of the `generate_plan` f-string before `{prd_text}`
(src/pl.py:52-57). -/
def planTemplateA : String :=
  "\n    You are a senior software architect. Carefully read the PRD below and \n    generate a **unique, PRD-specific step-by-step implementation plan**.\n\n    --- PRD START ---\n    "

/-- Segment between `{prd_text}` and `{language}` (src/pl.py:57-72). -/
def planTemplateB : String :=
  "\n    --- PRD END ---\n\n    Rules for the implementation plan:\n    - Break the plan into logical phases (e.g., Frontend, Backend, AI Integration, Authentication, Testing, Deployment, Optimization). \n      Only include phases that are relevant to THIS PRD.\n    - For each phase, provide:\n      • Objectives  \n      • Detailed Tasks (must reference actual features, APIs, and technologies mentioned in the PRD)  \n      • Deliverables  \n    - Do NOT create generic filler tasks. All tasks must map directly to the PRD.\n    - If the PRD specifies unique tools (e.g., Supabase, Firebase, OCR API, OpenAI), mention them explicitly in tasks.\n    - If the PRD is lightweight, reduce the number of phases but go deeper into tasks.\n    - Ensure the final roadmap looks like a professional execution plan tailored to this project.\n\n    Language: "

/-- Segment after `{language}` (src/pl.py:72-73). -/
def planTemplateC : String := "\n    "

/-- The f-string of `generate_plan` (src/pl.py:52-73). -/
def generate_plan_prompt (prd_text language : String) : String :=
  planTemplateA ++ prd_text ++ planTemplateB ++ language ++ planTemplateC

/-- A response object returned by `model.generate_content`: it carries a
`.text` attribute.  A Python object without `__bool__`/`__len__` is always
truthy, so a present response is truthy regardless of its text. -/
structure GenResponse where
  text : String
deriving DecidableEq, Repr

/-- The fixed fallback string of src/pl.py:48 and src/pl.py:76. -/
def noResponseMsg : String := "⚠️ No response from Gemini."

/-- `response.text if response else "⚠️ No response from Gemini."`
(src/pl.py:48, 76): `none` models a falsy (absent) response. -/
def generateContentResult (response : Option GenResponse) : String :=
  match response with
  | some r => r.text
  | none => noResponseMsg

/-- An external generation provider: maps the prompt sent to the model to the
response object returned (or `none` for a falsy response). -/
def Provider : Type := String → Option GenResponse

/-- `generate_prd` (src/pl.py:22-48): build the prompt, make exactly one
provider call, and post-process the response. -/
def generate_prd (provider : Provider) (app_name app_idea app_type language : String) : String :=
  generateContentResult (provider (generate_prd_prompt app_name app_idea app_type language))

/-- `generate_plan` (src/pl.py:51-76). -/
def generate_plan (provider : Provider) (prd_text language : String) : String :=
  generateContentResult (provider (generate_plan_prompt prd_text language))

/-- A wall-clock instant as produced by Python `datetime.now()`. -/
structure DateTime where
  year : Nat
  month : Nat
  day : Nat
  hour : Nat
  minute : Nat
  second : Nat
deriving DecidableEq, Repr

/-- Ranges guaranteed by Python `datetime.now()` for any present-era clock
(`datetime` enforces 1 ≤ year ≤ 9999; a real clock is past year 1000). -/
def DateTime.Valid (t : DateTime) : Prop :=
  1000 ≤ t.year ∧ t.year ≤ 9999 ∧ 1 ≤ t.month ∧ t.month ≤ 12 ∧
  1 ≤ t.day ∧ t.day ≤ 31 ∧ t.hour ≤ 23 ∧ t.minute ≤ 59 ∧ t.second ≤ 59

instance (t : DateTime) : Decidable t.Valid := by
  unfold DateTime.Valid; infer_instance

/-- Zero-pad to two digits, as strftime `%m`, `%d`, `%H`, `%M`, `%S` do. -/
def pad2 (n : Nat) : String :=
  if n < 10 then "0" ++ toString n else toString n

/-- Zero-pad to four digits, as strftime `%Y` renders a year: rendered as the
two-digit high half followed by the two-digit low half, which on the
`datetime`-guaranteed domain `n ≤ 9999` is exactly the zero-padded four-digit
decimal numeral. -/
def pad4 (n : Nat) : String :=
  pad2 (n / 100) ++ pad2 (n % 100)

/-- `datetime.now().strftime('%Y%m%d_%H%M%S')` (src/pl.py:113, 142). -/
def timestampStr (t : DateTime) : String :=
  pad4 t.year ++ pad2 t.month ++ pad2 t.day ++ "_" ++
  pad2 t.hour ++ pad2 t.minute ++ pad2 t.second

/-- PRD export file name with extension (src/pl.py:113-118): base name from
the app name and timestamp, `.md` when the export format is `"Markdown"`,
`.txt` otherwise. -/
def tab1FileName (app_name export_format : String) (now : DateTime) : String :=
  replaceSpaces app_name ++ "_PRD_" ++ timestampStr now ++
  (if export_format = "Markdown" then ".md" else ".txt")

/-- Plan export file name (src/pl.py:142-144): fixed base plus timestamp,
always `.md`. -/
def tab2FileName (now : DateTime) : String :=
  "ImplementationPlan_" ++ timestampStr now ++ ".md"

/-- The Streamlit session state used by the app: the single handoff slot
`st.session_state["last_prd"]` (src/pl.py:110, 128); `none` before any PRD
has been generated (`.get` with default `""`). -/
structure SessionState where
  last_prd : Option String
deriving DecidableEq, Repr

/-- A user action triggering one script rerun: pressing a Generate button.
For the Plan tab the text area holds `override` when the user edited it,
otherwise its default (the handoff slot). -/
inductive UserEvent where
  | submitPRD (app_name app_idea app_type language export_format : String)
  | submitPlan (override : Option String) (plan_language : String)
deriving DecidableEq, Repr

/-- Observable outcome of one script run: configuration errors (`st.error`),
validation warnings (`st.warning`), the number of `model.generate_content`
invocations, the displayed result, the session state after the run, the
default text shown in the Plan tab text area at the end of the run, and the
offered download file name. -/
structure ScriptResult where
  configErrors : List String
  warnings : List String
  modelCalls : Nat
  displayed : Option String
  session : SessionState
  planDefault : String
  fileName : Option String
deriving DecidableEq, Repr

/-- One full top-to-bottom run of src/pl.py.  The module-level credential
check (src/pl.py:14-17) runs unconditionally; the two button handlers
(src/pl.py:99-118 and 131-144) run only when the corresponding button was
pressed.  Tab 1 executes before Tab 2's widgets are instantiated, so the
Plan tab default (src/pl.py:128) reads the handoff slot after any write by
Tab 1's handler (src/pl.py:110).  Each call of `generate_prd`/`generate_plan`
performs exactly one `model.generate_content` invocation (src/pl.py:47, 75),
which `modelCalls` counts. -/
def runScript (apiKey : Option String) (provider : Provider) (st : SessionState)
    (now : DateTime) (ev : Option UserEvent) : ScriptResult :=
  let configErrors :=
    if optStrTruthy apiKey then [] else ["❌ GOOGLE_API_KEY not set in .env file."]
  match ev with
  | some (.submitPRD app_name app_idea app_type language export_format) =>
    if !pyTruthy app_idea || !pyTruthy app_name then
      { configErrors := configErrors
        warnings := ["⚠️ Please enter both App Name and Description."]
        modelCalls := 0
        displayed := none
        session := st
        planDefault := st.last_prd.getD ""
        fileName := none }
    else
      let prd_output := generate_prd provider app_name app_idea app_type language
      let st' : SessionState := { last_prd := some prd_output }
      { configErrors := configErrors
        warnings := []
        modelCalls := 1
        displayed := some prd_output
        session := st'
        planDefault := st'.last_prd.getD ""
        fileName := some (tab1FileName app_name export_format now) }
  | some (.submitPlan override plan_language) =>
    let prd_input := override.getD (st.last_prd.getD "")
    if !pyTruthy (pyStrip prd_input) then
      { configErrors := configErrors
        warnings := ["⚠️ Please provide a PRD to generate a plan."]
        modelCalls := 0
        displayed := none
        session := st
        planDefault := st.last_prd.getD ""
        fileName := none }
    else
      let plan_output := generate_plan provider prd_input plan_language
      { configErrors := configErrors
        warnings := []
        modelCalls := 1
        displayed := some plan_output
        session := st
        planDefault := st.last_prd.getD ""
        fileName := some (tab2FileName now) }
  | none =>
      { configErrors := configErrors
        warnings := []
        modelCalls := 0
        displayed := none
        session := st
        planDefault := st.last_prd.getD ""
        fileName := none }

/-- Does this run overwrite the handoff slot?  Only a PRD submission that
passes validation does (src/pl.py:110). -/
def overwritesHandoff : Option UserEvent → Bool
  | some (.submitPRD app_name app_idea _ _ _) => pyTruthy app_idea && pyTruthy app_name
  | _ => false

/-- Does the triggering event pass the handler's input validation
(src/pl.py:100, 132) in session state `st`?  Exactly then is a generation
call issued during the run. -/
def passesValidation (st : SessionState) : Option UserEvent → Bool
  | some (.submitPRD app_name app_idea _ _ _) => pyTruthy app_idea && pyTruthy app_name
  | some (.submitPlan override _) => pyTruthy (pyStrip (override.getD (st.last_prd.getD "")))
  | none => false

/-- Session state after a sequence of script runs. -/
def runSession (apiKey : Option String) (provider : Provider) (now : DateTime)
    (st : SessionState) (evs : List (Option UserEvent)) : SessionState :=
  evs.foldl (fun s e => (runScript apiKey provider s now e).session) st

/-! ## Helper lemmas -/

theorem pyTruthy_iff (s : String) : pyTruthy s = true ↔ s ≠ "" := by
  simp only [pyTruthy, Bool.not_eq_true', Bool.eq_false_iff, ne_eq]
  exact not_congr (String.isEmpty_iff s)

theorem pyTruthy_eq_false_iff (s : String) : pyTruthy s = false ↔ s = "" := by
  simp [pyTruthy, String.isEmpty_iff]

theorem pyStrip_eq_empty (s : String) (h : ∀ c ∈ s.data, isPySpace c = true) :
    pyStrip s = "" := by
  unfold pyStrip
  rw [List.dropWhile_eq_nil_iff.mpr h]
  rfl

/-- A run whose event does not pass PRD validation leaves the session state
untouched: only src/pl.py:110 ever writes to it. -/
theorem runScript_session_frame (apiKey : Option String) (provider : Provider)
    (st : SessionState) (now : DateTime) (ev : Option UserEvent)
    (h : overwritesHandoff ev = false) :
    (runScript apiKey provider st now ev).session = st := by
  match ev with
  | none => rfl
  | some (.submitPRD n i t l f) =>
    simp only [overwritesHandoff, Bool.and_eq_false_iff] at h
    have hc : (!pyTruthy i || !pyTruthy n) = true := by
      rcases h with h | h <;> simp [h]
    simp [runScript, hc]
  | some (.submitPlan ov lang) =>
    by_cases hc : pyTruthy (pyStrip (ov.getD (st.last_prd.getD ""))) = true
    · simp [runScript, hc]
    · simp only [Bool.not_eq_true] at hc
      simp [runScript, hc]

/-- In a run whose event does not pass PRD validation, the Plan tab default
is the handoff slot the run started with (src/pl.py:128). -/
theorem runScript_planDefault_frame (apiKey : Option String) (provider : Provider)
    (st : SessionState) (now : DateTime) (ev : Option UserEvent)
    (h : overwritesHandoff ev = false) :
    (runScript apiKey provider st now ev).planDefault = st.last_prd.getD "" := by
  match ev with
  | none => rfl
  | some (.submitPRD n i t l f) =>
    simp only [overwritesHandoff, Bool.and_eq_false_iff] at h
    have hc : (!pyTruthy i || !pyTruthy n) = true := by
      rcases h with h | h <;> simp [h]
    simp [runScript, hc]
  | some (.submitPlan ov lang) =>
    by_cases hc : pyTruthy (pyStrip (ov.getD (st.last_prd.getD ""))) = true
    · simp [runScript, hc]
    · simp only [Bool.not_eq_true] at hc
      simp [runScript, hc]

/-- A sequence of non-overwriting runs leaves the session state unchanged. -/
theorem runSession_frame (apiKey : Option String) (provider : Provider)
    (now : DateTime) (st : SessionState) (evs : List (Option UserEvent))
    (h : ∀ x ∈ evs, overwritesHandoff x = false) :
    runSession apiKey provider now st evs = st := by
  induction evs generalizing st with
  | nil => rfl
  | cons e rest ih =>
    have h1 : (runScript apiKey provider st now e).session = st :=
      runScript_session_frame apiKey provider st now e (h e (List.mem_cons_self e rest))
    have h2 : ∀ x ∈ rest, overwritesHandoff x = false :=
      fun x hx => h x (List.mem_cons_of_mem e hx)
    calc runSession apiKey provider now st (e :: rest)
        = runSession apiKey provider now (runScript apiKey provider st now e).session rest := rfl
      _ = runSession apiKey provider now st rest := by rw [h1]
      _ = st := ih st h2

/-- A validating PRD submission runs the success branch of the handler
(src/pl.py:102-118). -/
theorem runScript_prd_valid (apiKey : Option String) (provider : Provider)
    (st : SessionState) (now : DateTime) (n i t l f : String)
    (hn : n ≠ "") (hi : i ≠ "") :
    runScript apiKey provider st now (some (.submitPRD n i t l f)) =
      { configErrors :=
          if optStrTruthy apiKey then [] else ["❌ GOOGLE_API_KEY not set in .env file."]
        warnings := []
        modelCalls := 1
        displayed := some (generate_prd provider n i t l)
        session := ⟨some (generate_prd provider n i t l)⟩
        planDefault := generate_prd provider n i t l
        fileName := some (tab1FileName n f now) } := by
  have hc : (!pyTruthy i || !pyTruthy n) = false := by
    simp [(pyTruthy_iff i).mpr hi, (pyTruthy_iff n).mpr hn]
  simp [runScript, hc]

/-! ## Claim C2 -/

/-- Claim C2, counterexample: a stub provider that returns a response object
carrying empty text is an "empty response", yet `generate_prd` returns the
empty string, not the fixed placeholder, so the claim as stated is false. -/
theorem empty_text_response_returned_verbatim :
    generate_prd (fun _ => some ⟨""⟩) "TaskFlow" "A todo app" "Web App" "English" = "" ∧
    generate_plan (fun _ => some ⟨""⟩) "Some PRD" "English" = "" ∧
    "" ≠ noResponseMsg := by
  refine ⟨rfl, rfl, ?_⟩
  decide

/-- Claim C2, amended: for every stub provider that returns a null (falsy)
response, `generate_prd` and `generate_plan` return the exact fixed
placeholder string and never propagate a failure; a (truthy) response object
carrying empty text is instead returned verbatim as the empty string. -/
theorem null_response_fallback (n i t l p lang : String) :
    generate_prd (fun _ => none) n i t l = "⚠️ No response from Gemini." ∧
    generate_plan (fun _ => none) p lang = "⚠️ No response from Gemini." ∧
    generate_prd (fun _ => some ⟨""⟩) n i t l = "" ∧
    generate_plan (fun _ => some ⟨""⟩) p lang = "" :=
  ⟨rfl, rfl, rfl, rfl⟩

/-! ## Claim C5 -/

/-- Claim C5: for all (name, description, category, language) tuples, the
prompt built by `generate_prd` contains the literal name substring and the
literal description substring unmodified. -/
theorem prd_prompt_contains_name_and_description (n i t l : String) :
    (∃ pre post, generate_prd_prompt n i t l = pre ++ n ++ post) ∧
    (∃ pre post, generate_prd_prompt n i t l = pre ++ i ++ post) := by
  constructor
  · exact ⟨prdTemplateA,
      prdTemplateB ++ t ++ prdTemplateC ++ i ++ prdTemplateD ++ l ++ prdTemplateE,
      by simp [generate_prd_prompt, String.append_assoc]⟩
  · exact ⟨prdTemplateA ++ n ++ prdTemplateB ++ t ++ prdTemplateC,
      prdTemplateD ++ l ++ prdTemplateE,
      by simp [generate_prd_prompt, String.append_assoc]⟩

/-! ## Claim C7 -/

/-- Claim C7: prompt construction is deterministic — two invocations of
`generate_prd` on identical (name, description, category, language) inputs
build byte-identical prompt strings, and likewise `generate_plan` on
identical (prdText, language) inputs. -/
theorem prompt_construction_deterministic
    (n₁ i₁ t₁ l₁ n₂ i₂ t₂ l₂ p₁ g₁ p₂ g₂ : String)
    (hn : n₁ = n₂) (hi : i₁ = i₂) (ht : t₁ = t₂) (hl : l₁ = l₂)
    (hp : p₁ = p₂) (hg : g₁ = g₂) :
    generate_prd_prompt n₁ i₁ t₁ l₁ = generate_prd_prompt n₂ i₂ t₂ l₂ ∧
    generate_plan_prompt p₁ g₁ = generate_plan_prompt p₂ g₂ := by
  subst hn hi ht hl hp hg
  exact ⟨rfl, rfl⟩

/-- Witness for C7 at concrete inputs. -/
theorem prompt_construction_deterministic_witness :
    generate_prd_prompt "TaskFlow" "A todo app" "Web App" "English" =
      generate_prd_prompt "TaskFlow" "A todo app" "Web App" "English" ∧
    generate_plan_prompt "Some PRD" "English" = generate_plan_prompt "Some PRD" "English" :=
  prompt_construction_deterministic
    "TaskFlow" "A todo app" "Web App" "English"
    "TaskFlow" "A todo app" "Web App" "English"
    "Some PRD" "English" "Some PRD" "English"
    rfl rfl rfl rfl rfl rfl

/-! ## Claim C3 -/

/-- Claim C3: for every PRD submission, if the name or the description is
empty the Generation Client is invoked zero times and a user-facing warning
is emitted; if both are non-empty it is invoked exactly once. -/
theorem prd_validation_gates_generation (apiKey : Option String) (provider : Provider)
    (st : SessionState) (now : DateTime) (n i t l f : String) :
    ((n = "" ∨ i = "") →
      (runScript apiKey provider st now (some (.submitPRD n i t l f))).modelCalls = 0 ∧
      (runScript apiKey provider st now (some (.submitPRD n i t l f))).warnings
        = ["⚠️ Please enter both App Name and Description."]) ∧
    (n ≠ "" → i ≠ "" →
      (runScript apiKey provider st now (some (.submitPRD n i t l f))).modelCalls = 1) := by
  constructor
  · intro h
    have hc : (!pyTruthy i || !pyTruthy n) = true := by
      rcases h with h | h
      · simp [(pyTruthy_eq_false_iff n).mpr h]
      · simp [(pyTruthy_eq_false_iff i).mpr h]
    constructor <;> simp [runScript, hc]
  · intro hn hi
    rw [runScript_prd_valid apiKey provider st now n i t l f hn hi]

/-- Witness for C3: an empty name blocks the call, and non-empty name and
description trigger exactly one call. -/
theorem prd_validation_gates_generation_witness :
    (runScript (some "key") (fun _ => some ⟨"ok"⟩) ⟨none⟩ ⟨2025, 1, 1, 0, 0, 0⟩
        (some (.submitPRD "" "A todo app" "Web App" "English" "Markdown"))).modelCalls = 0 ∧
    (runScript (some "key") (fun _ => some ⟨"ok"⟩) ⟨none⟩ ⟨2025, 1, 1, 0, 0, 0⟩
        (some (.submitPRD "TaskFlow" "A todo app" "Web App" "English" "Markdown"))).modelCalls = 1 :=
  ⟨((prd_validation_gates_generation (some "key") (fun _ => some ⟨"ok"⟩) ⟨none⟩
      ⟨2025, 1, 1, 0, 0, 0⟩ "" "A todo app" "Web App" "English" "Markdown").1 (Or.inl rfl)).1,
   (prd_validation_gates_generation (some "key") (fun _ => some ⟨"ok"⟩) ⟨none⟩
      ⟨2025, 1, 1, 0, 0, 0⟩ "TaskFlow" "A todo app" "Web App" "English" "Markdown").2
      (by decide) (by decide)⟩

/-! ## Claim C8 -/

/-- Claim C8: submitting the Plan workflow with an empty source document
shows a warning, invokes the Generation Client zero times, produces no
result, and leaves the session (handoff slot included) unchanged. -/
theorem plan_empty_submission_rejected (apiKey : Option String) (provider : Provider)
    (st : SessionState) (now : DateTime) (lang : String) :
    (runScript apiKey provider st now (some (.submitPlan (some "") lang))).warnings
      = ["⚠️ Please provide a PRD to generate a plan."] ∧
    (runScript apiKey provider st now (some (.submitPlan (some "") lang))).modelCalls = 0 ∧
    (runScript apiKey provider st now (some (.submitPlan (some "") lang))).displayed = none ∧
    (runScript apiKey provider st now (some (.submitPlan (some "") lang))).session = st ∧
    (runScript apiKey provider st now (some (.submitPlan (some "") lang))).fileName = none := by
  have hc : pyTruthy (pyStrip "") = false := rfl
  refine ⟨?_, ?_, ?_, ?_, ?_⟩ <;> simp [runScript, hc]

/-! ## Claim C9 -/

/-- Claim C9: the Plan workflow never writes to the handoff slot — every Plan
submission leaves the session state unchanged — and more generally every run
that is not a validating PRD submission leaves it unchanged. -/
theorem plan_workflow_preserves_handoff (apiKey : Option String) (provider : Provider)
    (st : SessionState) (now : DateTime) (ov : Option String) (lang : String) :
    (runScript apiKey provider st now (some (.submitPlan ov lang))).session = st ∧
    ∀ ev, overwritesHandoff ev = false → (runScript apiKey provider st now ev).session = st := by
  constructor
  · exact runScript_session_frame apiKey provider st now (some (.submitPlan ov lang)) rfl
  · intro ev h
    exact runScript_session_frame apiKey provider st now ev h

/-- Witness for C9 at a concrete Plan submission and a concrete idle run. -/
theorem plan_workflow_preserves_handoff_witness :
    (runScript (some "key") (fun _ => some ⟨"ok"⟩) ⟨some "R"⟩ ⟨2025, 1, 1, 0, 0, 0⟩
        (some (.submitPlan (some "doc") "English"))).session = ⟨some "R"⟩ ∧
    (runScript (some "key") (fun _ => some ⟨"ok"⟩) ⟨some "R"⟩ ⟨2025, 1, 1, 0, 0, 0⟩
        none).session = ⟨some "R"⟩ :=
  ⟨(plan_workflow_preserves_handoff (some "key") (fun _ => some ⟨"ok"⟩) ⟨some "R"⟩
      ⟨2025, 1, 1, 0, 0, 0⟩ (some "doc") "English").1,
   (plan_workflow_preserves_handoff (some "key") (fun _ => some ⟨"ok"⟩) ⟨some "R"⟩
      ⟨2025, 1, 1, 0, 0, 0⟩ (some "doc") "English").2 none rfl⟩

/-! ## Claim C10 -/

/-- Claim C10: the two emptiness checks differ — a PRD submission whose name
and description are whitespace-only (hence non-empty) passes the truthiness
check of src/pl.py:100 and invokes the Generation Client, while a Plan
submission whose source document is whitespace-only is rejected with a
warning by the stripped check of src/pl.py:132 and never reaches the
client. -/
theorem whitespace_validation_asymmetry (apiKey : Option String) (provider : Provider)
    (st : SessionState) (now : DateTime) (n i t l f input lang : String)
    (hn : n ≠ "") (hi : i ≠ "")
    (_hns : ∀ c ∈ n.data, isPySpace c = true)
    (_his : ∀ c ∈ i.data, isPySpace c = true)
    (hin : ∀ c ∈ input.data, isPySpace c = true) :
    (runScript apiKey provider st now (some (.submitPRD n i t l f))).modelCalls = 1 ∧
    (runScript apiKey provider st now (some (.submitPlan (some input) lang))).modelCalls = 0 ∧
    (runScript apiKey provider st now (some (.submitPlan (some input) lang))).warnings
      = ["⚠️ Please provide a PRD to generate a plan."] := by
  have hc : pyTruthy (pyStrip input) = false := by
    rw [pyStrip_eq_empty input hin]
    rfl
  refine ⟨?_, ?_, ?_⟩
  · rw [runScript_prd_valid apiKey provider st now n i t l f hn hi]
  · simp [runScript, hc]
  · simp [runScript, hc]

/-- Witness for C10: whitespace-only inputs on both tabs. -/
theorem whitespace_validation_asymmetry_witness :
    (runScript (some "key") (fun _ => some ⟨"ok"⟩) ⟨none⟩ ⟨2025, 1, 1, 0, 0, 0⟩
        (some (.submitPRD "  " " " "Web App" "English" "Markdown"))).modelCalls = 1 ∧
    (runScript (some "key") (fun _ => some ⟨"ok"⟩) ⟨none⟩ ⟨2025, 1, 1, 0, 0, 0⟩
        (some (.submitPlan (some "  ") "English"))).modelCalls = 0 :=
  ⟨(whitespace_validation_asymmetry (some "key") (fun _ => some ⟨"ok"⟩) ⟨none⟩
      ⟨2025, 1, 1, 0, 0, 0⟩ "  " " " "Web App" "English" "Markdown" "  " "English"
      (by decide) (by decide) (by decide) (by decide) (by decide)).1,
   (whitespace_validation_asymmetry (some "key") (fun _ => some ⟨"ok"⟩) ⟨none⟩
      ⟨2025, 1, 1, 0, 0, 0⟩ "  " " " "Web App" "English" "Markdown" "  " "English"
      (by decide) (by decide) (by decide) (by decide) (by decide)).2.1⟩

/-! ## Claim C1 -/

/-- Claim C1, counterexample: with the credential absent, the configuration
error is shown, yet a PRD submission with non-empty inputs still performs a
generation call — the handlers are not gated on the credential
(src/pl.py:99-104 runs regardless of src/pl.py:14-17). -/
theorem missing_key_generation_still_attempted :
    (runScript none (fun _ => some ⟨"ok"⟩) ⟨none⟩ ⟨2025, 1, 1, 0, 0, 0⟩
        (some (.submitPRD "TaskFlow" "A todo app" "Web App" "English" "Markdown"))).configErrors
      = ["❌ GOOGLE_API_KEY not set in .env file."] ∧
    (runScript none (fun _ => some ⟨"ok"⟩) ⟨none⟩ ⟨2025, 1, 1, 0, 0, 0⟩
        (some (.submitPRD "TaskFlow" "A todo app" "Web App" "English" "Markdown"))).modelCalls
      = 1 := by
  constructor <;> rfl

/-- Claim C1, amended: if the credential is absent, every script run reports
the configuration error exactly once, but generation is not gated on it: a
run still performs exactly one generation call whenever its triggering event
passes input validation, and performs none otherwise. -/
theorem missing_key_error_reported_not_gating (provider : Provider) (st : SessionState)
    (now : DateTime) (ev : Option UserEvent) :
    (runScript none provider st now ev).configErrors
      = ["❌ GOOGLE_API_KEY not set in .env file."] ∧
    (runScript none provider st now ev).modelCalls
      = (if passesValidation st ev then 1 else 0) := by
  match ev with
  | none => exact ⟨rfl, rfl⟩
  | some (.submitPRD n i t l f) =>
    cases hpi : pyTruthy i <;> cases hpn : pyTruthy n <;>
      constructor <;> simp [runScript, passesValidation, hpi, hpn, optStrTruthy]
  | some (.submitPlan ov lang) =>
    cases hv : pyTruthy (pyStrip (ov.getD (st.last_prd.getD ""))) <;>
      constructor <;> simp [runScript, passesValidation, hv, optStrTruthy]

/-! ## Claim C4 -/

/-- Claim C4: after a PRD generation completes with result R, the handoff
slot holds R and the Plan tab's input default is exactly R, and both remain
so across any further runs none of which is a validating PRD submission. -/
theorem handoff_persists_until_overwrite
    (apiKey : Option String) (provider : Provider) (now : DateTime) (st : SessionState)
    (n i t l f : String) (evs : List (Option UserEvent)) (e : Option UserEvent)
    (hn : n ≠ "") (hi : i ≠ "")
    (hevs : ∀ x ∈ evs, overwritesHandoff x = false)
    (he : overwritesHandoff e = false) :
    (runScript apiKey provider st now (some (.submitPRD n i t l f))).planDefault
      = generate_prd provider n i t l ∧
    runSession apiKey provider now
        (runScript apiKey provider st now (some (.submitPRD n i t l f))).session evs
      = ⟨some (generate_prd provider n i t l)⟩ ∧
    (runScript apiKey provider
        (runSession apiKey provider now
          (runScript apiKey provider st now (some (.submitPRD n i t l f))).session evs)
        now e).planDefault
      = generate_prd provider n i t l := by
  have h1 := runScript_prd_valid apiKey provider st now n i t l f hn hi
  have hsess : (runScript apiKey provider st now (some (.submitPRD n i t l f))).session
      = ⟨some (generate_prd provider n i t l)⟩ := by rw [h1]
  have h2 : runSession apiKey provider now
      (⟨some (generate_prd provider n i t l)⟩ : SessionState) evs
      = ⟨some (generate_prd provider n i t l)⟩ :=
    runSession_frame apiKey provider now _ evs hevs
  refine ⟨by rw [h1], by rw [hsess, h2], ?_⟩
  rw [hsess, h2, runScript_planDefault_frame apiKey provider _ now e he]
  rfl

/-- Witness for C4 at a concrete session: generate a PRD, then run a Plan
submission and an idle rerun, then observe the Plan tab default. -/
theorem handoff_persists_until_overwrite_witness :
    runSession (some "key") (fun _ => some ⟨"R"⟩) ⟨2025, 1, 1, 0, 0, 0⟩
        (runScript (some "key") (fun _ => some ⟨"R"⟩) ⟨none⟩ ⟨2025, 1, 1, 0, 0, 0⟩
          (some (.submitPRD "TaskFlow" "A todo app" "Web App" "English" "Markdown"))).session
        [some (.submitPlan (some "doc") "English"), none]
      = ⟨some (generate_prd (fun _ => some ⟨"R"⟩) "TaskFlow" "A todo app" "Web App" "English")⟩ :=
  (handoff_persists_until_overwrite (some "key") (fun _ => some ⟨"R"⟩)
    ⟨2025, 1, 1, 0, 0, 0⟩ ⟨none⟩ "TaskFlow" "A todo app" "Web App" "English" "Markdown"
    [some (.submitPlan (some "doc") "English"), none] none
    (by decide) (by decide) (by decide) (by decide)).2.1

/-! ## Claim C6 -/

theorem pad2_spec : ∀ n < 100, (pad2 n).length = 2 ∧ isDigitString (pad2 n) = true := by
  decide

theorem isDigitString_append (a b : String) :
    isDigitString (a ++ b) = (isDigitString a && isDigitString b) := by
  simp [isDigitString, String.data_append, List.all_append]

theorem pad4_spec (n : Nat) (h : n ≤ 9999) :
    (pad4 n).length = 4 ∧ isDigitString (pad4 n) = true := by
  have h1 : n / 100 < 100 := by omega
  have h2 : n % 100 < 100 := Nat.mod_lt _ (by norm_num)
  have p1 := pad2_spec (n / 100) h1
  have p2 := pad2_spec (n % 100) h2
  constructor
  · rw [pad4, String.length_append, p1.1, p2.1]
  · rw [pad4, isDigitString_append, p1.2, p2.2]
    rfl

/-- Claim C6: the PRD export file name is the app name with spaces replaced
by underscores, then `_PRD_`, then a YYYYMMDD_HHMMSS timestamp (eight digits,
an underscore, six digits — fourteen digits in total), with extension `.md`
for Markdown and `.txt` for Text; for app name "TaskFlow" with Markdown the
name is `TaskFlow_PRD_` plus that timestamp plus `.md`; the Plan export file
name is always `ImplementationPlan_` plus the same timestamp plus `.md`. -/
theorem export_filenames_shape (app_name : String) (now : DateTime) (h : now.Valid) :
    tab1FileName app_name "Markdown" now
      = replaceSpaces app_name ++ "_PRD_" ++ timestampStr now ++ ".md" ∧
    tab1FileName app_name "Text" now
      = replaceSpaces app_name ++ "_PRD_" ++ timestampStr now ++ ".txt" ∧
    (∃ d tm, timestampStr now = d ++ "_" ++ tm ∧ d.length = 8 ∧ tm.length = 6 ∧
       isDigitString d = true ∧ isDigitString tm = true) ∧
    tab1FileName "TaskFlow" "Markdown" now = "TaskFlow_PRD_" ++ timestampStr now ++ ".md" ∧
    tab2FileName now = "ImplementationPlan_" ++ timestampStr now ++ ".md" := by
  obtain ⟨hy1, hy2, hm1, hm2, hd1, hd2, hh, hmi, hs⟩ := h
  have py := pad4_spec now.year (by omega)
  have pm := pad2_spec now.month (by omega)
  have pd := pad2_spec now.day (by omega)
  have ph := pad2_spec now.hour (by omega)
  have pmi := pad2_spec now.minute (by omega)
  have ps := pad2_spec now.second (by omega)
  refine ⟨?_, ?_, ?_, ?_, rfl⟩
  · unfold tab1FileName
    rw [if_pos rfl]
  · unfold tab1FileName
    rw [if_neg (by decide)]
  · refine ⟨pad4 now.year ++ pad2 now.month ++ pad2 now.day,
      pad2 now.hour ++ pad2 now.minute ++ pad2 now.second, ?_, ?_, ?_, ?_, ?_⟩
    · simp [timestampStr, String.append_assoc]
    · rw [String.length_append, String.length_append, py.1, pm.1, pd.1]
    · rw [String.length_append, String.length_append, ph.1, pmi.1, ps.1]
    · rw [isDigitString_append, isDigitString_append, py.2, pm.2, pd.2]
      rfl
    · rw [isDigitString_append, isDigitString_append, ph.2, pmi.2, ps.2]
      rfl
  · have rs : replaceSpaces "TaskFlow" = "TaskFlow" := by decide
    have lit : ("TaskFlow" : String) ++ "_PRD_" = "TaskFlow_PRD_" := by decide
    unfold tab1FileName
    rw [if_pos rfl, rs, lit]

/-- Witness for C6 at a concrete clock reading. -/
theorem export_filenames_shape_witness :
    DateTime.Valid ⟨2025, 10, 12, 3, 4, 5⟩ ∧
    tab2FileName ⟨2025, 10, 12, 3, 4, 5⟩
      = "ImplementationPlan_" ++ timestampStr ⟨2025, 10, 12, 3, 4, 5⟩ ++ ".md" :=
  ⟨by decide,
   (export_filenames_shape "TaskFlow" ⟨2025, 10, 12, 3, 4, 5⟩ (by decide)).2.2.2.2⟩

end PrdPlan
